import Mathlib

/-!
# Verification of the LLFSM execution engine (swift-fsmlib examples)

Shallow embedding of the Low-Level Finite State Machine runtime whose
generated per-machine tables live under `examples/CounterC.machine`
(C, `fsmconvert`) and `examples/Counter.machine` /
`examples/SuspendCounter.machine` (C++, MiCASE).

The repository snapshot contains the generated state/machine tables
(`Machine_CounterC.c/h`, `State_Initial.c`, `State_CountUp.c`, the
remaining headers) but not the engine that drives them: `step()`,
`suspend()` and `resume()` exist only in the specification.  Definitions
taken from the C sources say so in their doc comments; definitions for
the missing engine are marked `Modelled from the spec:`.

State pointers are represented by their index in the machine's state
table (`Option Nat`, `none` standing for a NULL pointer); machine
variables are an abstract type `σ`, and the five lifecycle callbacks are
functions `σ → σ`.  The engine records which callback it invoked in an
event trace, so that call sequences (onSuspend/onResume, onExit/onEntry,
internal) can be reasoned about.
-/

namespace LLFSM

/-- A guarded transition: a side-effect-free guard over the machine
variables plus the index of the target state.  From the generated
`check_transitions` pattern, e.g. `State_CountUp.c`:
`if (<Transition_0.expr>) return machine->states[3];`. -/
structure Transition (σ : Type) where
  guard : σ → Bool
  target : Nat

/-- A state's behaviour table: ordered transitions plus the five
lifecycle callbacks, mirroring `struct FSMCounterC_State_*`
(`check_transitions` is represented by `transitions` plus the generic
scan below). -/
structure StateDef (σ : Type) where
  transitions : List (Transition σ)
  on_entry : σ → σ
  on_exit : σ → σ
  internalAction : σ → σ
  on_suspend : σ → σ
  on_resume : σ → σ

/-- The machine record, mirroring `struct Machine_CounterC`
(`Machine_CounterC.h`): current/previous/suspend/resume state pointers,
the logical `state_time` counter, the fixed state table, and the machine
variables. -/
structure Machine (σ : Type) where
  current_state : Option Nat
  previous_state : Option Nat
  state_time : Nat
  suspend_state : Option Nat
  resume_state : Option Nat
  states : List (StateDef σ)
  vars : σ

/-- Events recording which lifecycle callback the engine invoked on
which state index. -/
inductive Event where
  | onEntry : Nat → Event
  | onExit : Nat → Event
  | internalAct : Nat → Event
  | onSuspend : Nat → Event
  | onResume : Nat → Event
deriving DecidableEq

/-- Result conditions of `suspend()` / `resume()` (spec section 7). -/
inductive FsmResult where
  | ok
  | unsupportedOperation
  | invalidState
deriving DecidableEq

/-- Scan a transition list in ascending order and return the target of
the first transition whose guard evaluates true, or `none` if all
guards are false.  This is the generated `check_transitions` cascade
(`if (expr_i) return machine->states[t_i]; ... return NULL;`), of which
`State_Initial.c` and `State_CountUp.c` are single-transition
instances; the general scan order is from the spec (section 4.1 step 1). -/
def checkTransitions (v : σ) : List (Transition σ) → Option Nat
  | [] => none
  | t :: ts => if t.guard v then some t.target else checkTransitions v ts

/-- Modelled from the spec: `step()` (section 4.1) is not in the
repository snapshot (only the generated tables it drives are).
A suspended machine is frozen; otherwise the current state's
transitions are scanned; on a first true guard with a target distinct
from the current state the engine runs onExit, updates
previous/current, zeroes `state_time` and runs the target's onEntry;
otherwise (no guard true, or the degenerate self-target treated as
"stay") it runs the internal action and increments `state_time`. -/
def step (m : Machine σ) : Machine σ × List Event :=
  if m.resume_state.isSome then (m, [])
  else
    match m.current_state with
    | none => (m, [])
    | some c =>
      match m.states[c]? with
      | none => (m, [])
      | some st =>
        match checkTransitions m.vars st.transitions with
        | some t =>
          if t = c then
            ({ m with vars := st.internalAction m.vars,
                      state_time := m.state_time + 1 }, [Event.internalAct c])
          else
            let v1 := st.on_exit m.vars
            let v2 := match m.states[t]? with
              | some st2 => st2.on_entry v1
              | none => v1
            ({ m with vars := v2, previous_state := some c,
                      current_state := some t, state_time := 0 },
             [Event.onExit c, Event.onEntry t])
        | none =>
          ({ m with vars := st.internalAction m.vars,
                    state_time := m.state_time + 1 }, [Event.internalAct c])

/-- The machine component of one `step()`. -/
def stepM (m : Machine σ) : Machine σ := (step m).1

/-- The event trace of one `step()`. -/
def stepEvents (m : Machine σ) : List Event := (step m).2

/-- Iterated `step()` (`stepN n m` is the machine after `n` ticks). -/
def stepN (n : Nat) (m : Machine σ) : Machine σ :=
  match n with
  | 0 => m
  | k + 1 => stepM (stepN k m)

/-- Modelled from the spec: `suspend()` (section 4.2) is not in the
repository snapshot.  Fails with `unsupportedOperation` if the machine
has no designated suspend state; is a no-op if already suspended;
otherwise runs the current state's onSuspend callback, saves the
current state in `resume_state`, moves to the suspend state and zeroes
`state_time`.  No onExit/onEntry callback runs. -/
def suspend (m : Machine σ) : FsmResult × Machine σ × List Event :=
  match m.suspend_state with
  | none => (FsmResult.unsupportedOperation, m, [])
  | some s =>
    if m.resume_state.isSome then (FsmResult.ok, m, [])
    else
      match m.current_state with
      | none =>
        (FsmResult.ok,
         { m with resume_state := none, current_state := some s,
                  state_time := 0 }, [])
      | some c =>
        let v1 := match m.states[c]? with
          | some st => st.on_suspend m.vars
          | none => m.vars
        (FsmResult.ok,
         { m with vars := v1, resume_state := some c,
                  current_state := some s, state_time := 0 },
         [Event.onSuspend c])

/-- Modelled from the spec: `resume()` (section 4.2) is not in the
repository snapshot.  Fails with `invalidState` if not suspended
(`resume_state` is `none`), leaving the machine untouched; otherwise
restores the saved state, clears `resume_state`, zeroes `state_time`
and runs the restored state's onResume callback.  No onExit/onEntry
callback runs. -/
def resume (m : Machine σ) : FsmResult × Machine σ × List Event :=
  match m.resume_state with
  | none => (FsmResult.invalidState, m, [])
  | some r =>
    let v1 := match m.states[r]? with
      | some st => st.on_resume m.vars
      | none => m.vars
    (FsmResult.ok,
     { m with vars := v1, current_state := some r, resume_state := none,
              state_time := 0 },
     [Event.onResume r])

/-- From `fsm_counterc_init` (`Machine_CounterC.c`): current state
becomes `states[0]`, previous and resume state pointers become NULL,
`state_time` becomes 0, and the suspend state becomes `states[4]`. -/
def fsm_counterc_init (m : Machine σ) : Machine σ :=
  { m with current_state := some 0, previous_state := none,
           state_time := 0, suspend_state := some 4,
           resume_state := none }

/-- From the `RESTART` macro (`Machine_CounterC.h`):
`(((m)->previous_state = (m)->current_state) && ((m)->current_state = (m)->states[0]))`.
The value of the first assignment is the old `current_state` pointer;
when it is NULL the `&&` short-circuits and the second assignment (to
`states[0]`, i.e. index 0) never runs. -/
def RESTART (m : Machine σ) : Machine σ :=
  match m.current_state with
  | none => { m with previous_state := none }
  | some c => { m with previous_state := some c, current_state := some 0 }

/-- From the `GET_TIME` macro (`Machine_CounterC.h`):
`(machine->state_time + 1)`. -/
def GET_TIME (m : Machine σ) : Nat := m.state_time + 1

/-! ## The concrete CounterC machine

The state-table layout (which name sits at which index) and the guard
expressions are not in the repository snapshot: the `states` array is
initialised by builder code outside the snapshot and the
`*_Transition_0.expr` files are absent.  The layout is modelled from
the spec's chain `Initial → InitialPseudoState → CountUp → Print →
SUSPENDED` (section 8) combined with the targets that ARE in the code:
`State_Initial.c` returns `machine->states[2]` (so InitialPseudoState
is index 2), `State_CountUp.c` returns `machine->states[3]` (so Print
is index 3), and `fsm_counterc_init` sets `suspend_state =
machine->states[4]` (so SUSPENDED is index 4).  With Initial at
index 0 (the spec's initial state) this leaves CountUp at index 1.
Guards follow the spec scenario: Initial's, InitialPseudoState's and
Print's single transitions fire unconditionally; CountUp's guard stays
false. -/

/-- Trivial callback body: the `.mm` action bodies are outside the
engine's contract, so machine variables are `Unit` and every callback
is the identity. -/
def noAction : Unit → Unit := fun v => v

/-- CounterC state 0, Initial.  Its single transition's target
`machine->states[2]` is from `fsm_counterc_initial_check_transitions`
(`State_Initial.c`); the guard (true) is the scenario's. -/
def initialStateDef : StateDef Unit :=
  { transitions := [{ guard := fun _ => true, target := 2 }],
    on_entry := noAction, on_exit := noAction, internalAction := noAction,
    on_suspend := noAction, on_resume := noAction }

/-- CounterC state 1, CountUp.  Its single transition's target
`machine->states[3]` is from `fsm_counterc_countup_check_transitions`
(`State_CountUp.c`); the guard (false) is the scenario's ("while its
guard stays false"). -/
def countUpStateDef : StateDef Unit :=
  { transitions := [{ guard := fun _ => false, target := 3 }],
    on_entry := noAction, on_exit := noAction, internalAction := noAction,
    on_suspend := noAction, on_resume := noAction }

/-- Modelled from the spec: CounterC state 2, InitialPseudoState.  Its
`check_transitions` body is not in the snapshot; per the spec chain it
has a single unconditional transition to CountUp (index 1). -/
def initialPseudoStateDef : StateDef Unit :=
  { transitions := [{ guard := fun _ => true, target := 1 }],
    on_entry := noAction, on_exit := noAction, internalAction := noAction,
    on_suspend := noAction, on_resume := noAction }

/-- Modelled from the spec: CounterC state 3, Print.  Its
`check_transitions` body is not in the snapshot; per the spec chain it
has a single unconditional transition to SUSPENDED (index 4). -/
def printStateDef : StateDef Unit :=
  { transitions := [{ guard := fun _ => true, target := 4 }],
    on_entry := noAction, on_exit := noAction, internalAction := noAction,
    on_suspend := noAction, on_resume := noAction }

/-- CounterC state 4, SUSPENDED: the designated dead-end suspend state
(no transitions). -/
def suspendedStateDef : StateDef Unit :=
  { transitions := [],
    on_entry := noAction, on_exit := noAction, internalAction := noAction,
    on_suspend := noAction, on_resume := noAction }

/-- The CounterC state table (`MACHINE_COUNTERC_NUMBER_OF_STATES` = 5,
`Machine_CounterC.h`), in the index layout derived above. -/
def counterCStates : List (StateDef Unit) :=
  [initialStateDef, countUpStateDef, initialPseudoStateDef,
   printStateDef, suspendedStateDef]

/-- The CounterC machine right after `fsm_counterc_init`. -/
def counterC0 : Machine Unit :=
  fsm_counterc_init
    { current_state := none, previous_state := none, state_time := 0,
      suspend_state := none, resume_state := none,
      states := counterCStates, vars := () }

/-! ## Dispatch-table validation (`validate`)

The C state structs hold six raw function pointers; `fsm_counterc_*_init`
registers the generated implementations and `fsm_counterc_*_validate`
compares each pointer against the registered implementation by
identity.  Function pointers are modelled as an enumeration of the
generated functions of the two states whose `.c` files are in the
snapshot (Initial and CountUp). -/

/-- Identities of the generated callback functions (`State_Initial.c`,
`State_CountUp.c`). -/
inductive FnId where
  | initialCheckTransitions | initialOnEntry | initialOnExit
  | initialInternalAction | initialOnSuspend | initialOnResume
  | countupCheckTransitions | countupOnEntry | countupOnExit
  | countupInternalAction | countupOnSuspend | countupOnResume
deriving DecidableEq, BEq

/-- The six function-pointer slots of a generated state struct
(`struct FSMCounterC_State_*`). -/
structure StateDispatchTable where
  check_transitions : FnId
  on_entry : FnId
  on_exit : FnId
  internalSlot : FnId
  on_suspend : FnId
  on_resume : FnId
deriving DecidableEq, BEq

/-- From `fsm_counterc_initial_init` (`State_Initial.c`): the dispatch
table registered for the Initial state. -/
def fsm_counterc_initial_init : StateDispatchTable :=
  { check_transitions := FnId.initialCheckTransitions,
    on_entry := FnId.initialOnEntry, on_exit := FnId.initialOnExit,
    internalSlot := FnId.initialInternalAction,
    on_suspend := FnId.initialOnSuspend, on_resume := FnId.initialOnResume }

/-- From `fsm_counterc_countup_init` (`State_CountUp.c`): the dispatch
table registered for the CountUp state. -/
def fsm_counterc_countup_init : StateDispatchTable :=
  { check_transitions := FnId.countupCheckTransitions,
    on_entry := FnId.countupOnEntry, on_exit := FnId.countupOnExit,
    internalSlot := FnId.countupInternalAction,
    on_suspend := FnId.countupOnSuspend, on_resume := FnId.countupOnResume }

/-- From `fsm_counterc_initial_validate` (`State_Initial.c`): compares
all six slots of the Initial state's table against the registered
implementations. -/
def fsm_counterc_initial_validate (st : StateDispatchTable) : Bool :=
  st.check_transitions == FnId.initialCheckTransitions &&
  st.on_entry == FnId.initialOnEntry &&
  st.on_exit == FnId.initialOnExit &&
  st.internalSlot == FnId.initialInternalAction &&
  st.on_suspend == FnId.initialOnSuspend &&
  st.on_resume == FnId.initialOnResume

/-- From `fsm_counterc_countup_validate` (`State_CountUp.c`): compares
all six slots of the CountUp state's table against the registered
implementations. -/
def fsm_counterc_countup_validate (st : StateDispatchTable) : Bool :=
  st.check_transitions == FnId.countupCheckTransitions &&
  st.on_entry == FnId.countupOnEntry &&
  st.on_exit == FnId.countupOnExit &&
  st.internalSlot == FnId.countupInternalAction &&
  st.on_suspend == FnId.countupOnSuspend &&
  st.on_resume == FnId.countupOnResume

/-- The machine as seen by the validator: the current-state pointer and
the dispatch tables of the states whose sources are in the snapshot. -/
structure MachineDispatchView where
  current_state : Option Nat
  initialTable : StateDispatchTable
  countupTable : StateDispatchTable
deriving DecidableEq

/-- From `fsm_counterc_validate` (`Machine_CounterC.c`):

    return machine->current_state != NULL &&
    true; // FIXME: check states

Only the current-state pointer is checked; the per-state dispatch-table
validators are generated but never called. -/
def fsm_counterc_validate (m : MachineDispatchView) : Bool :=
  m.current_state.isSome && true

/-- A machine whose CountUp dispatch table was built with a mismatched
callback: its `check_transitions` slot holds the Initial state's
implementation, everything else as registered. -/
def mismatchedCounterC : MachineDispatchView :=
  { current_state := some 0,
    initialTable := fsm_counterc_initial_init,
    countupTable :=
      { fsm_counterc_countup_init with
          check_transitions := FnId.initialCheckTransitions } }

/-! ## The C++ (MiCASE) Counter machine, for structural comparison -/

/-- From `Counter.h` (C++): `numberOfStates() const { return 5; }`. -/
def Counter_numberOfStates : Nat := 5

/-- From `State_CountUp.h` (C++): `numberOfTransitions() const { return 1; }`. -/
def CountUp_numberOfTransitions : Nat := 1

/-- From `State_CountUp.h` (C++): `Transition_0(int toState = 3)`. -/
def CountUp_Transition_0_toState : Nat := 3

/-- From `Machine_CounterC.h` (C):
`#define MACHINE_COUNTERC_NUMBER_OF_STATES 5`. -/
def MACHINE_COUNTERC_NUMBER_OF_STATES : Nat := 5

/-- A running CounterC machine sitting in CountUp (index 1) with some
state time, used as concrete input in several statements. -/
def restartDemoMachine : Machine Unit :=
  { current_state := some 1, previous_state := none, state_time := 5,
    suspend_state := some 4, resume_state := none,
    states := counterCStates, vars := () }

/-- A CounterC machine whose current-state pointer is NULL (the
condition `fsm_counterc_validate` checks for). -/
def nullCurrentMachine : Machine Unit :=
  { current_state := none, previous_state := some 3, state_time := 7,
    suspend_state := some 4, resume_state := none,
    states := counterCStates, vars := () }

/-- The CounterC machine sitting in CountUp, `k` ticks after entering
it (previous state is InitialPseudoState, index 2). -/
def atCountUp (k : Nat) : Machine Unit :=
  { current_state := some 1, previous_state := some 2, state_time := k,
    suspend_state := some 4, resume_state := none,
    states := counterCStates, vars := () }

/-- The CounterC machine while suspended: sitting in SUSPENDED
(index 4) with CountUp (index 1) saved in `resume_state`. -/
def suspendedCounterC : Machine Unit :=
  { current_state := some 4, previous_state := some 2, state_time := 0,
    suspend_state := some 4, resume_state := some 1,
    states := counterCStates, vars := () }

/-- A three-transition list whose first true guard is the middle one,
used as concrete input for the first-match scan. -/
def demoTransitions : List (Transition Unit) :=
  [{ guard := fun _ => false, target := 7 },
   { guard := fun _ => true, target := 3 },
   { guard := fun _ => true, target := 9 }]

end LLFSM

namespace LLFSM

/-! ## Helper lemmas -/

/-- The scan returns the target of the first transition whose guard is
true. -/
lemma checkTransitions_first_true {σ : Type} (v : σ) :
    ∀ (ts : List (Transition σ)) (i : Nat) (t : Transition σ),
      ts[i]? = some t →
      (∀ j u, j < i → ts[j]? = some u → u.guard v = false) →
      t.guard v = true →
      checkTransitions v ts = some t.target := by
  intro ts
  induction ts with
  | nil => intro i t h _ _; simp at h
  | cons a ts ih =>
    intro i t hget hprev hg
    cases i with
    | zero =>
      simp only [List.getElem?_cons_zero, Option.some.injEq] at hget
      subst hget
      simp [checkTransitions, hg]
    | succ n =>
      have ha : a.guard v = false := hprev 0 a (Nat.succ_pos n) (by simp)
      simp only [List.getElem?_cons_succ] at hget
      simp only [checkTransitions, ha, Bool.false_eq_true, if_false]
      exact ih n t hget
        (fun j u hj hju =>
          hprev (j + 1) u (Nat.succ_lt_succ hj)
            (by simpa using hju)) hg

/-- The scan returns `none` when every guard is false. -/
lemma checkTransitions_all_false {σ : Type} (v : σ) :
    ∀ (ts : List (Transition σ)),
      (∀ (i : Nat) (t : Transition σ), ts[i]? = some t → t.guard v = false) →
      checkTransitions v ts = none := by
  intro ts
  induction ts with
  | nil => intro _; rfl
  | cons a ts ih =>
    intro h
    have ha : a.guard v = false := h 0 a (by simp)
    simp only [checkTransitions, ha, Bool.false_eq_true, if_false]
    exact ih (fun i t hi => h (i + 1) t (by simpa using hi))

/-- One `step()` either keeps the current state or moves to the single
target chosen by the first-match scan. -/
lemma step_at_most_one_transition {σ : Type} (m : Machine σ) :
    (stepM m).current_state = m.current_state ∨
    (∃ c st, m.current_state = some c ∧ m.states[c]? = some st ∧
      ∃ t, checkTransitions m.vars st.transitions = some t ∧
        (stepM m).current_state = some t) := by
  by_cases hsus : m.resume_state.isSome
  · left; simp [stepM, step, hsus]
  · cases hc : m.current_state with
    | none => left; simp [stepM, step, hsus, hc]
    | some c =>
      cases hst : m.states[c]? with
      | none => left; simp [stepM, step, hsus, hc, hst]
      | some st =>
        cases hck : checkTransitions m.vars st.transitions with
        | none => left; simp [stepM, step, hsus, hc, hst, hck]
        | some t =>
          by_cases htc : t = c
          · left; simp [stepM, step, hsus, hc, hst, hck, htc]
          · right
            exact ⟨c, st, rfl, hst, t, hck,
              by simp [stepM, step, hsus, hc, hst, hck, htc]⟩

/-- `step()` never touches the `resume_state` field. -/
lemma step_preserves_resume_state {σ : Type} (m : Machine σ) :
    (stepM m).resume_state = m.resume_state := by
  by_cases hsus : m.resume_state.isSome
  · simp [stepM, step, hsus]
  · cases hc : m.current_state with
    | none => simp [stepM, step, hsus, hc]
    | some c =>
      cases hst : m.states[c]? with
      | none => simp [stepM, step, hsus, hc, hst]
      | some st =>
        cases hck : checkTransitions m.vars st.transitions with
        | none => simp [stepM, step, hsus, hc, hst, hck]
        | some t =>
          by_cases htc : t = c
          · simp [stepM, step, hsus, hc, hst, hck, htc]
          · simp [stepM, step, hsus, hc, hst, hck, htc]

/-- After two ticks the CounterC machine is in CountUp with zero state
time. -/
lemma stepN_two_counterC : stepN 2 counterC0 = atCountUp 0 := rfl

/-- While CountUp's guard is false, a tick in CountUp stays there and
increments the state time. -/
lemma stepM_atCountUp (k : Nat) : stepM (atCountUp k) = atCountUp (k + 1) := rfl

/-- A tick in CountUp runs exactly its internal action. -/
lemma stepEvents_atCountUp (k : Nat) :
    stepEvents (atCountUp k) = [Event.internalAct 1] := rfl

/-- The CounterC run: from `fsm_counterc_init`, tick `k + 2` sits in
CountUp with state time `k`. -/
lemma stepN_counterC_at (k : Nat) : stepN (k + 2) counterC0 = atCountUp k := by
  induction k with
  | zero => exact stepN_two_counterC
  | succ n ih =>
    have : stepN (n + 1 + 2) counterC0 = stepM (stepN (n + 2) counterC0) := rfl
    rw [this, ih, stepM_atCountUp]

/-! ## Claims -/

/-- C1: `fsm_counterc_validate` is claimed to return false on any
dispatch-table mismatch.  It does not: the generated machine-level
validator checks only `current_state != NULL` (its states check is a
literal `FIXME`), so a machine whose CountUp table holds the Initial
state's `check_transitions` implementation — which the generated
per-state validator `fsm_counterc_countup_validate` rejects — still
validates as true. -/
theorem C1_validate_accepts_mismatched_dispatch :
    fsm_counterc_validate mismatchedCounterC = true ∧
    fsm_counterc_countup_validate mismatchedCounterC.countupTable = false := by
  exact ⟨rfl, rfl⟩

/-- C2: the transition scan evaluates guards in ascending list order
and yields the target of the first true guard, `none` when all guards
are false, and one `step()` changes the current state at most once, to
exactly that first target. -/
theorem C2_first_match_wins :
    ∀ (σ : Type) (v : σ) (ts : List (Transition σ)),
      (∀ (i : Nat) (t : Transition σ), ts[i]? = some t →
        (∀ j u, j < i → ts[j]? = some u → u.guard v = false) →
        t.guard v = true →
        checkTransitions v ts = some t.target) ∧
      ((∀ (i : Nat) (t : Transition σ), ts[i]? = some t → t.guard v = false) →
        checkTransitions v ts = none) ∧
      (∀ (m : Machine σ),
        (stepM m).current_state = m.current_state ∨
        (∃ c st, m.current_state = some c ∧ m.states[c]? = some st ∧
          ∃ t, checkTransitions m.vars st.transitions = some t ∧
            (stepM m).current_state = some t)) := by
  intro σ v ts
  exact ⟨fun i t h1 h2 h3 => checkTransitions_first_true v ts i t h1 h2 h3,
         fun h => checkTransitions_all_false v ts h,
         fun m => step_at_most_one_transition m⟩

/-- Witness for C2 at concrete inputs: in `demoTransitions` the guards
are false, true, true in that order, so the scan picks the middle
target 3 (never 9); on a single always-false transition it yields
`none`. -/
theorem C2_first_match_wins_witness :
    checkTransitions () demoTransitions = some 3 ∧
    checkTransitions () [({ guard := fun _ => false, target := 5 } : Transition Unit)] = none := by
  constructor
  · apply (C2_first_match_wins Unit () demoTransitions).1 1
      { guard := fun _ => true, target := 3 }
    · rfl
    · intro j u hj hu
      have hj0 : j = 0 := by omega
      subst hj0
      have hu' : some ({ guard := fun _ => false, target := 7 } : Transition Unit) = some u := hu
      have := Option.some.inj hu'
      subst this
      rfl
    · rfl
  · apply (C2_first_match_wins Unit ()
      [({ guard := fun _ => false, target := 5 } : Transition Unit)]).2.1
    intro i t hi
    cases i with
    | zero =>
      have hi' : some ({ guard := fun _ => false, target := 5 } : Transition Unit) = some t := hi
      have := Option.some.inj hi'
      subst this
      rfl
    | succ n => simp at hi

/-- C3 counterexample: the claim quantifies over every operation that
changes `currentState`, but the `RESTART` macro changes
`current_state` (from CountUp, index 1, to `states[0]`) while leaving
`state_time` at its old value 5 instead of resetting it to 0. -/
theorem C3_restart_counterexample :
    (RESTART restartDemoMachine).current_state ≠ restartDemoMachine.current_state ∧
    (RESTART restartDemoMachine).current_state = some 0 ∧
    (RESTART restartDemoMachine).state_time = 5 ∧
    (RESTART restartDemoMachine).state_time ≠ 0 := by
  refine ⟨by decide, rfl, rfl, by decide⟩

/-- C3 (amended): the engine operations `step()`, `suspend()` and
`resume()` reset `state_time` to 0 whenever they change the current
state, and a `step()` that leaves the current state unchanged never
decreases `state_time` (it is bumped only by the internal-action
branch); the `RESTART` macro is the exception recorded in the
counterexample. -/
theorem C3_state_time_reset_and_monotone :
    ∀ (σ : Type) (m : Machine σ),
      ((stepM m).current_state ≠ m.current_state →
        (stepM m).state_time = 0) ∧
      ((stepM m).current_state = m.current_state →
        m.state_time ≤ (stepM m).state_time) ∧
      ((suspend m).2.1 = m ∨ (suspend m).2.1.state_time = 0) ∧
      ((suspend m).2.1.current_state ≠ m.current_state →
        (suspend m).2.1.state_time = 0) ∧
      ((resume m).2.1 = m ∨ (resume m).2.1.state_time = 0) ∧
      ((resume m).2.1.current_state ≠ m.current_state →
        (resume m).2.1.state_time = 0) := by
  intro σ m
  have hstep :
      ((stepM m).current_state ≠ m.current_state →
        (stepM m).state_time = 0) ∧
      ((stepM m).current_state = m.current_state →
        m.state_time ≤ (stepM m).state_time) := by
    by_cases hsus : m.resume_state.isSome
    · constructor <;> simp [stepM, step, hsus]
    · cases hc : m.current_state with
      | none => constructor <;> simp [stepM, step, hsus, hc]
      | some c =>
        cases hst : m.states[c]? with
        | none => constructor <;> simp [stepM, step, hsus, hc, hst]
        | some st =>
          cases hck : checkTransitions m.vars st.transitions with
          | none =>
            constructor <;>
              simp [stepM, step, hsus, hc, hst, hck, Nat.le_succ]
          | some t =>
            by_cases htc : t = c
            · constructor <;>
                simp [stepM, step, hsus, hc, hst, hck, htc, Nat.le_succ]
            · constructor <;> simp [stepM, step, hsus, hc, hst, hck, htc]
  have hsusp :
      ((suspend m).2.1 = m ∨ (suspend m).2.1.state_time = 0) ∧
      ((suspend m).2.1.current_state ≠ m.current_state →
        (suspend m).2.1.state_time = 0) := by
    cases hs : m.suspend_state with
    | none => constructor <;> simp [suspend, hs]
    | some s =>
      by_cases hr : m.resume_state.isSome
      · constructor <;> simp [suspend, hs, hr]
      · cases hc : m.current_state with
        | none =>
          exact ⟨Or.inr (by simp [suspend, hs, hr, hc]),
            fun _ => by simp [suspend, hs, hr, hc]⟩
        | some c =>
          exact ⟨Or.inr (by simp [suspend, hs, hr, hc]),
            fun _ => by simp [suspend, hs, hr, hc]⟩
  have hres :
      ((resume m).2.1 = m ∨ (resume m).2.1.state_time = 0) ∧
      ((resume m).2.1.current_state ≠ m.current_state →
        (resume m).2.1.state_time = 0) := by
    cases hr : m.resume_state with
    | none => constructor <;> simp [resume, hr]
    | some r =>
      exact ⟨Or.inr (by simp [resume, hr]), fun _ => by simp [resume, hr]⟩
  exact ⟨hstep.1, hstep.2, hsusp.1, hsusp.2, hres.1, hres.2⟩

/-- Witness for C3 at concrete CounterC machines: a transitioning step
(from Initial) ends with zero state time, a staying step (in CountUp
at state time 5) does not decrease it, and suspending a running
machine or resuming a suspended one — both changing the current
state — zero it. -/
theorem C3_state_time_reset_and_monotone_witness :
    (stepM counterC0).state_time = 0 ∧
    5 ≤ (stepM (atCountUp 5)).state_time ∧
    (suspend (atCountUp 5)).2.1.state_time = 0 ∧
    (resume suspendedCounterC).2.1.state_time = 0 :=
  ⟨(C3_state_time_reset_and_monotone Unit counterC0).1 (by decide),
   (C3_state_time_reset_and_monotone Unit (atCountUp 5)).2.1 rfl,
   (C3_state_time_reset_and_monotone Unit (atCountUp 5)).2.2.2.1 (by decide),
   (C3_state_time_reset_and_monotone Unit suspendedCounterC).2.2.2.2.2
     (by decide)⟩

/-- C4: `fsm_counterc_init` sets the current state to `states[0]`
(index 0), clears the previous and resume state pointers, zeroes
`state_time`; and `step()` never writes `resume_state`, so a machine
that is not suspended stays that way until `suspend()` is called. -/
theorem C4_init_establishes_initial_configuration :
    ∀ (σ : Type) (m : Machine σ),
      (fsm_counterc_init m).current_state = some 0 ∧
      (fsm_counterc_init m).previous_state = none ∧
      (fsm_counterc_init m).state_time = 0 ∧
      (fsm_counterc_init m).resume_state = none ∧
      (stepM m).resume_state = m.resume_state := by
  intro σ m
  exact ⟨rfl, rfl, rfl, rfl, step_preserves_resume_state m⟩

/-- C5: the `GET_TIME()` macro evaluates to `state_time + 1` for every
machine, and on the concrete CounterC run it equals the number of
ticks spent in the current state plus one (logical time, not
wall-clock). -/
theorem C5_get_time_is_logical_ticks_plus_one :
    (∀ (σ : Type) (m : Machine σ), GET_TIME m = m.state_time + 1) ∧
    (∀ (k : Nat), GET_TIME (stepN (k + 2) counterC0) = k + 1) := by
  constructor
  · intro σ m; rfl
  · intro k; rw [stepN_counterC_at k]; rfl

/-- C6 counterexample: the claim calls CountUp's single transition a
self-loop.  In the CounterC table CountUp sits at index 1 while its
single transition (from `State_CountUp.c`, `return machine->states[3]`)
targets index 3, the Print state — not CountUp itself. -/
theorem C6_countup_transition_is_not_a_self_loop :
    counterCStates[1]? = some countUpStateDef ∧
    List.map (fun t => Transition.target t) countUpStateDef.transitions = [3] ∧
    (3 : Nat) ≠ 1 := by
  refine ⟨rfl, rfl, by decide⟩

/-- C6 (amended): in the CounterC machine with Initial's and
InitialPseudoState's transitions firing unconditionally, starting from
state 0 the machine is not yet in CountUp after one `step()`, is in
CountUp after exactly two, and — while CountUp's single outgoing guard
(targeting Print, `states[3]`; not a self-loop) stays false — every
subsequent tick runs exactly CountUp's internal action with
`state_time` taking the values 0, 1, 2, … . -/
theorem C6_counterc_reaches_countup_in_two_steps :
    (stepN 1 counterC0).current_state ≠ some 1 ∧
    (stepN 2 counterC0).current_state = some 1 ∧
    ∀ (k : Nat),
      (stepN (k + 2) counterC0).current_state = some 1 ∧
      (stepN (k + 2) counterC0).state_time = k ∧
      stepEvents (stepN (k + 2) counterC0) = [Event.internalAct 1] := by
  refine ⟨by decide, rfl, ?_⟩
  intro k
  rw [stepN_counterC_at k]
  exact ⟨rfl, rfl, stepEvents_atCountUp k⟩

/-- C7: on a suspensible, non-suspended machine, `suspend()` then
`resume()` restores the pre-suspend current state, and the only
callbacks invoked are onSuspend (of the suspended state) then onResume
(of the restored state) — no onExit or onEntry event occurs. -/
theorem C7_suspend_resume_roundtrip :
    ∀ (σ : Type) (m : Machine σ) (c s : Nat),
      m.current_state = some c → m.resume_state = none →
      m.suspend_state = some s →
      (suspend m).1 = FsmResult.ok ∧
      (suspend m).2.2 = [Event.onSuspend c] ∧
      (resume (suspend m).2.1).1 = FsmResult.ok ∧
      (resume (suspend m).2.1).2.2 = [Event.onResume c] ∧
      (resume (suspend m).2.1).2.1.current_state = some c := by
  intro σ m c s hc hr hs
  have hsusp :
      suspend m =
        (FsmResult.ok,
         { m with
             vars := match m.states[c]? with
               | some st => st.on_suspend m.vars
               | none => m.vars,
             resume_state := some c, current_state := some s,
             state_time := 0 },
         [Event.onSuspend c]) := by
    simp [suspend, hs, hr, hc]
  rw [hsusp]
  refine ⟨rfl, rfl, ?_, ?_, ?_⟩ <;> simp [resume]

/-- Witness for C7: the freshly initialised CounterC machine (current
state Initial, index 0; suspend state SUSPENDED, index 4). -/
theorem C7_suspend_resume_roundtrip_witness :
    (suspend counterC0).1 = FsmResult.ok ∧
    (suspend counterC0).2.2 = [Event.onSuspend 0] ∧
    (resume (suspend counterC0).2.1).1 = FsmResult.ok ∧
    (resume (suspend counterC0).2.1).2.2 = [Event.onResume 0] ∧
    (resume (suspend counterC0).2.1).2.1.current_state = some 0 :=
  C7_suspend_resume_roundtrip Unit counterC0 0 4 rfl rfl rfl

/-- C8: `resume()` on a machine that is not suspended (`resume_state`
is `none`) fails with the `invalidState` condition, returns the
machine bit-for-bit unchanged, and invokes no callback. -/
theorem C8_resume_on_not_suspended_fails :
    ∀ (σ : Type) (m : Machine σ), m.resume_state = none →
      resume m = (FsmResult.invalidState, m, []) := by
  intro σ m h
  simp [resume, h]

/-- Witness for C8: the freshly initialised CounterC machine is not
suspended, so `resume()` fails and changes nothing. -/
theorem C8_resume_on_not_suspended_fails_witness :
    resume counterC0 = (FsmResult.invalidState, counterC0, []) :=
  C8_resume_on_not_suspended_fails Unit counterC0 rfl

/-- C9 counterexample: on a machine whose `current_state` pointer is
NULL, the first assignment in `RESTART` yields NULL, the `&&`
short-circuits, and `current_state` is never set to `states[0]` —
refuting the claim for every machine. -/
theorem C9_restart_counterexample :
    (RESTART nullCurrentMachine).current_state = none ∧
    (RESTART nullCurrentMachine).current_state ≠ some 0 ∧
    (RESTART nullCurrentMachine).state_time = 7 := by
  refine ⟨rfl, by decide, rfl⟩

/-- C9 (amended): for every machine whose `current_state` is non-NULL,
`RESTART` sets `previous_state` to the old current state and
`current_state` to `states[0]` (index 0) and touches nothing else —
`state_time` is not reset, `suspend_state`/`resume_state` are
untouched, and no callback can run (the macro is pure field
shuffling); when `current_state` is NULL the `&&` short-circuits after
setting `previous_state` to NULL. -/
theorem C9_restart_frame :
    ∀ (σ : Type) (m : Machine σ) (c : Nat), m.current_state = some c →
      RESTART m =
        { m with previous_state := some c, current_state := some 0 } ∧
      (RESTART m).state_time = m.state_time ∧
      (RESTART m).resume_state = m.resume_state ∧
      (RESTART m).suspend_state = m.suspend_state := by
  intro σ m c h
  have hre : RESTART m =
      { m with previous_state := some c, current_state := some 0 } := by
    simp [RESTART, h]
  exact ⟨hre, by rw [hre], by rw [hre], by rw [hre]⟩

/-- Witness for C9: `RESTART` on the CountUp-resident machine with
state time 5. -/
theorem C9_restart_frame_witness :
    RESTART restartDemoMachine =
      { restartDemoMachine with
          previous_state := some 1, current_state := some 0 } ∧
    (RESTART restartDemoMachine).state_time = restartDemoMachine.state_time ∧
    (RESTART restartDemoMachine).resume_state = restartDemoMachine.resume_state ∧
    (RESTART restartDemoMachine).suspend_state = restartDemoMachine.suspend_state :=
  C9_restart_frame Unit restartDemoMachine 1 rfl

/-- C10: the C++ (`Counter.h`, `State_CountUp.h`) and C
(`Machine_CounterC.h`, `State_CountUp.c`) generated representations
agree: both have 5 states and CountUp has exactly one transition
targeting state index 3 in both. -/
theorem C10_cpp_and_c_representations_agree :
    Counter_numberOfStates = MACHINE_COUNTERC_NUMBER_OF_STATES ∧
    MACHINE_COUNTERC_NUMBER_OF_STATES = counterCStates.length ∧
    CountUp_numberOfTransitions = countUpStateDef.transitions.length ∧
    List.map (fun t => Transition.target t) countUpStateDef.transitions =
      [CountUp_Transition_0_toState] := by
  exact ⟨rfl, rfl, rfl, rfl⟩

end LLFSM
